import Mathlib

/-!
Verification of the MokuMoku AI comment server (`src/main.py`).

The file shallowly embeds the single-module FastAPI service: the environment
lookup and module-initialisation credential check, the pydantic request
models and their validation, the prompt construction, the single outbound
chat-completion call, and the response construction.  Numeric payloads
(Python `float`) are embedded as exact rationals `ℚ`; the claims checked
here depend only on the rendered tokens `None` / `情報なし` / `0`, never on
the digits of a numeric rendering.  Python `datetime.utcnow()` is embedded
as an explicit natural-number UTC clock reading passed to the handler.
-/

namespace MokuMoku

/-- Whitespace characters removed by Python `str.strip()` (ASCII subset;
the service only strips model output, and no claim depends on exotic
Unicode whitespace). -/
def isPySpace (c : Char) : Bool :=
  c == ' ' || c == '\t' || c == '\n' || c == '\r' || c == '\x0b' || c == '\x0c'

/-- Embedding of Python `str.strip()`: drop leading and trailing whitespace. -/
def pyStrip (s : String) : String :=
  String.mk (((s.toList.dropWhile isPySpace).reverse.dropWhile isPySpace).reverse)

/-- `startsWithSeq pat l` is true when `pat` is a prefix of `l`. -/
def startsWithSeq : List Char → List Char → Bool
  | [], _ => true
  | _ :: _, [] => false
  | c :: cs, d :: ds => c == d && startsWithSeq cs ds

/-- `containsSeq pat l` is true when `pat` occurs contiguously inside `l`. -/
def containsSeq (pat : List Char) : List Char → Bool
  | [] => pat.isEmpty
  | c :: cs => startsWithSeq pat (c :: cs) || containsSeq pat cs

/-- Substring test on strings (Python `pat in s`). -/
def strContains (s pat : String) : Bool :=
  containsSeq pat.toList s.toList

/-- Embedding of the interpolation of a Python `float` in an f-string
(`repr` of the value).  Integral values render exactly as Python renders
them (`8.0`); non-integral values are rendered as exact rationals — no
claim checked in this file depends on the digits of a numeric rendering. -/
def pyFloatRepr (q : ℚ) : String :=
  if q.den = 1 then toString q.num ++ ".0" else toString q

/-- Interpolation of a Python `Optional[float]` in an f-string: `None`
renders as the literal token `None`. -/
def pyOptFloatRepr : Option ℚ → String
  | none => "None"
  | some q => pyFloatRepr q

/-! ### Environment and module initialisation (`src/main.py` lines 15–24) -/

/-- The process environment, as an association list of set variables. -/
def Env : Type := List (String × String)

/-- Embedding of `os.getenv`: `none` when the variable is unset. -/
def getenv (env : Env) (k : String) : Option String :=
  (List.find? (fun kv => kv.1 == k) env).map (fun kv => kv.2)

/-- Python truthiness of an `Optional[str]`: `None` and the empty string
are falsy. -/
def truthyStr : Option String → Bool
  | none => false
  | some s => !(s == "")

/-- Embedding of Python `a or b` on `Optional[str]` values: yields `a`
when `a` is truthy, otherwise `b`. -/
def pyOrStr (a b : Option String) : Option String :=
  if truthyStr a then a else b

/-- Embedding of the module-level credential lookup:
`os.getenv("OPENAI_API_KEY") or os.getenv("_OPENAI_API_KEY")`. -/
def api_key (env : Env) : Option String :=
  pyOrStr (getenv env "OPENAI_API_KEY") (getenv env "_OPENAI_API_KEY")

/-- The message of the `RuntimeError` raised at import time when the
credential is missing. -/
def initErrorMsg : String := "AI server: OPENAI_API_KEY is not set in environment"

/-- Embedding of module initialisation: `if not api_key: raise RuntimeError(...)`
followed by `client = OpenAI(api_key=api_key)`.  Returns the constructed
client (identified by its key) or the startup error.  When this errors the
process never starts and no endpoint — including `GET /` — is served. -/
def bootApp (env : Env) : Except String String :=
  match api_key env with
  | none => .error initErrorMsg
  | some s => if s == "" then .error initErrorMsg else .ok s

/-! ### Data model (`src/main.py` lines 57–97) -/

/-- Embedding of `class Scope(str, Enum)` with values day / week / month. -/
inductive Scope
  | day
  | week
  | month
deriving DecidableEq, Repr, BEq

/-- The string value of a `Scope` member, as interpolated into the id
f-string. -/
def Scope.val : Scope → String
  | .day => "day"
  | .week => "week"
  | .month => "month"

/-- Embedding of `PressureSummary` (all fields `Optional[float]`). -/
structure PressureSummary where
  min : Option ℚ
  max : Option ℚ
  delta : Option ℚ
deriving DecidableEq, Repr

/-- Embedding of `HeadacheSummary`. -/
structure HeadacheSummary where
  count : Int
  max_level : Int
  avg_level : Option ℚ
  first_at : Option String
  last_at : Option String
deriving DecidableEq, Repr

/-- Embedding of `AISummary`. -/
structure AISummary where
  pressure : Option PressureSummary
  headache : HeadacheSummary
  sleep_hours_avg : Option ℚ
  activity_score_avg : Option ℚ
deriving DecidableEq, Repr

/-- Embedding of `AICommentRequest`. -/
structure AICommentRequest where
  user_id : String
  scope : Scope
  target_date : String
  locale : String
  summary : AISummary
deriving DecidableEq, Repr

/-- Embedding of `AICommentResponse`; `generated_at` is a UTC clock
reading (`datetime.utcnow()`), embedded as a natural number. -/
structure AICommentResponse where
  id : String
  scope : Scope
  target_date : String
  text : String
  generated_at : Nat
deriving DecidableEq, Repr

/-! ### Prompt construction (`src/main.py` lines 27–49 and 106–155) -/

/-- Embedding of the module-level `SYSTEM_PROMPT` string, verbatim. -/
def SYSTEM_PROMPT : String :=
  "
あなたは頭痛・体調ログアプリ「もくもくスタンプカレンダー」の専用アシスタントです。
出力は必ず **日本語** で、1〜2文の短いコメントだけにしてください。

【役割】
- ユーザーが「この日 / この週 / この月はどんな感じだったか」を、ざっくり振り返れるように、
  やさしいトーンの一言コメントを出します。

【入力データの意味】
- pressure.min / max / delta : その期間の気圧の最小値・最大値・変動幅(hPa)。None の場合は情報なし。
- headache.count             : 頭痛スタンプの総数
- headache.max_level         : 一番強かった頭痛レベル (数値が大きいほど強い)
- headache.avg_level         : 頭痛レベルの平均値。None の場合は情報なし。
- sleep_hours_avg            : 平均睡眠時間(時間)。None の場合は情報なし。
- activity_score_avg         : 活動量スコア平均。大きいほどよく動いているイメージ。None の場合は情報なし。

【コメント方針】
- 医療的な診断・治療・薬の提案は絶対にしない。
- 「〜かもしれませんね」「〜な傾向がありそうです」のように、あくまでゆるい振り返りにとどめる。
- 数値をそのまま列挙するのではなく、「スタンプが多い／少ない」「気圧の変動が大きかった」
  など、ユーザーがパッとイメージしやすい日本語にする。
- 重くなりすぎない、やさしい励まし系のトーンで書く。
"

/-- The scope-label lookup table built in the handler. -/
def scopeLabelTable : List (Scope × String) :=
  [(.day, "この日"), (.week, "この週"), (.month, "この月")]

/-- Embedding of `{...}.get(req.scope, "この期間")`: dictionary lookup with a
default label. -/
def scope_label (s : Scope) : String :=
  ((List.find? (fun kv => kv.1 == s) scopeLabelTable).map (fun kv => kv.2)).getD "この期間"

/-- The pressure line of the prompt: interpolates the optional fields
directly when the object is present (a `None` field renders as the token
`None`), and renders 情報なし only when the whole object is absent. -/
def pressure_line (summary : AISummary) : String :=
  match summary.pressure with
  | some p =>
      "- 気圧: " ++ "最低 " ++ pyOptFloatRepr p.min ++ " hPa, 最高 " ++
        pyOptFloatRepr p.max ++ " hPa, 変動幅 " ++ pyOptFloatRepr p.delta ++ " hPa"
  | none => "- 気圧: 情報なし"

/-- The headache line of the prompt: always rendered; the average level
renders as 情報なし when `avg_level` is `None`. -/
def headache_line (summary : AISummary) : String :=
  let h := summary.headache
  "- 頭痛スタンプ: 合計 " ++ toString h.count ++ " 件, " ++
    "最大レベル " ++ toString h.max_level ++ ", " ++
    "平均レベル " ++ (match h.avg_level with
      | some v => pyFloatRepr v
      | none => "情報なし")

/-- The sleep line of the prompt. -/
def sleep_line (summary : AISummary) : String :=
  match summary.sleep_hours_avg with
  | some v => "- 平均睡眠時間: " ++ pyFloatRepr v ++ " 時間"
  | none => "- 平均睡眠時間: 情報なし"

/-- The activity line of the prompt. -/
def activity_line (summary : AISummary) : String :=
  match summary.activity_score_avg with
  | some v => "- 活動量スコア平均: " ++ pyFloatRepr v
  | none => "- 活動量スコア平均: 情報なし"

/-- The `parts` list built by the handler, in source order. -/
def build_parts (summary : AISummary) : List String :=
  [pressure_line summary, headache_line summary, sleep_line summary,
    activity_line summary]

/-- Embedding of `stats_block = "\n".join(parts)`. -/
def stats_block (summary : AISummary) : String :=
  String.intercalate "\n" (build_parts summary)

/-- Embedding of the `user_prompt` f-string template. -/
def user_prompt (req : AICommentRequest) : String :=
  "\n" ++ scope_label req.scope ++ "（ターゲット日: " ++ req.target_date ++
    "）の集計データは次の通りです。\n\n" ++ stats_block req.summary ++
    "\n\nこの情報をもとに、" ++ scope_label req.scope ++
    "の様子を 1〜2 文の短い日本語でコメントしてください。\n重くなりすぎず、やさしく振り返る感じでお願いします。\n"

/-! ### Outbound provider call and handler (`src/main.py` lines 100–175) -/

/-- One message of the outbound chat-completion request. -/
structure ChatMessage where
  role : String
  content : String
deriving DecidableEq, Repr

/-- The observable content of one `client.chat.completions.create` call. -/
structure ChatCall where
  model : String
  messages : List ChatMessage
  temperature : ℚ
deriving DecidableEq, Repr

/-- The `message` of a completion choice; `content` may be null. -/
structure CompletionMessage where
  content : Option String
deriving DecidableEq, Repr

/-- One choice of a provider completion. -/
structure CompletionChoice where
  message : CompletionMessage
deriving DecidableEq, Repr

/-- A provider completion response: a list of choices, possibly empty. -/
structure ChatCompletion where
  choices : List CompletionChoice
deriving DecidableEq, Repr

/-- Python exceptions the handler can raise while reading the provider
response: `completion.choices[0]` on an empty list (IndexError), and
`.strip()` on a `None` content (AttributeError). -/
inductive PyExc
  | indexError
  | attributeError
deriving DecidableEq, Repr

/-- The single outbound call the handler issues for a request: fixed model
`gpt-4.1-mini`, the fixed system prompt, the rendered user prompt, and
temperature 0.4.  No completion count is passed, so the provider default of
a single completion applies. -/
def mkChatCall (req : AICommentRequest) : ChatCall :=
  { model := "gpt-4.1-mini"
    messages := [⟨"system", SYSTEM_PROMPT⟩, ⟨"user", user_prompt req⟩]
    temperature := 0.4 }

/-- Embedding of the id f-string
`f"cmnt_{req.target_date}_{req.scope}_{req.user_id}"`. -/
def comment_id (req : AICommentRequest) : String :=
  "cmnt_" ++ req.target_date ++ "_" ++ req.scope.val ++ "_" ++ req.user_id

/-- Embedding of the `ai_comment` handler.  The provider is an oracle from
the outbound call to a completion; `nowUtc` is the UTC clock reading taken
by `datetime.utcnow()` when the response is constructed.  Returns the
result (response, or the Python exception escaping the handler) together
with the list of outbound calls made, in order; the handler is otherwise
pure, so this list is the complete set of observable effects. -/
def ai_comment (provider : ChatCall → ChatCompletion) (nowUtc : Nat)
    (req : AICommentRequest) : Except PyExc AICommentResponse × List ChatCall :=
  let call := mkChatCall req
  let completion := provider call
  match completion.choices.head? with
  | none => (.error .indexError, [call])
  | some choice =>
      match choice.message.content with
      | none => (.error .attributeError, [call])
      | some content =>
          (.ok { id := comment_id req
                 scope := req.scope
                 target_date := req.target_date
                 text := pyStrip content
                 generated_at := nowUtc }, [call])

/-! ### Inbound request validation (pydantic models of `src/main.py` 57–89)

The validation engine is the pydantic library (not under `src/`); the
parser below embeds its default (lax) validation for exactly the models
declared in the source: required vs optional fields, the closed `Scope`
string enumeration, `str` fields rejecting non-strings, `int` fields
accepting integral numbers and integer strings, `float` fields accepting
numbers and plain decimal strings, extra fields ignored.  Exotic numeric
string forms (exponents, infinities) are outside the embedding's scope;
no claim quantifies over them. -/

/-- A JSON value, the shape of an inbound request body. -/
inductive Json
  | null
  | bool (b : Bool)
  | num (q : ℚ)
  | str (s : String)
  | arr (xs : List Json)
  | obj (fields : List (String × Json))

/-- First binding of a key in a JSON object's field list. -/
def lookupField (fields : List (String × Json)) (k : String) : Option Json :=
  (List.find? (fun kv => kv.1 == k) fields).map (fun kv => kv.2)

/-- Value of a nonempty digit sequence, `none` if any char is not a digit. -/
def digitsVal? (cs : List Char) : Option Nat :=
  match cs with
  | [] => none
  | _ =>
    cs.foldl (fun acc c =>
      acc.bind (fun n => if c.isDigit then some (n * 10 + (c.toNat - 48)) else none))
      (some 0)

/-- Plain decimal string to rational: optional sign, digits with at most
one decimal point, at least one digit in total. -/
def parseDecimal? (s : String) : Option ℚ :=
  let cs := s.trim.toList
  let signed : ℚ × List Char :=
    match cs with
    | '-' :: rest => (-1, rest)
    | '+' :: rest => (1, rest)
    | _ => (1, cs)
  let body := String.mk signed.2
  match body.splitOn "." with
  | [a] => (digitsVal? a.toList).map (fun n => signed.1 * (n : ℚ))
  | [a, b] =>
      if (a.toList ++ b.toList).length = 0 then none
      else if (a.toList ++ b.toList).all Char.isDigit then
        (digitsVal? (a.toList ++ b.toList ++ [])).orElse (fun _ => some 0) |>.map
          (fun n => signed.1 * (n : ℚ) / ((10 : ℚ) ^ b.length))
      else none
  | _ => none

/-- pydantic lax validation of a `float` field. -/
def pyFloat? : Json → Option ℚ
  | .num q => some q
  | .str s => parseDecimal? s
  | _ => none

/-- pydantic lax validation of an `int` field: integral numbers and
integer strings. -/
def pyInt? : Json → Option Int
  | .num q => if q.den = 1 then some q.num else none
  | .str s => s.trim.toInt?
  | _ => none

/-- pydantic validation of a `str` field: strings only. -/
def pyStr? : Json → Option String
  | .str s => some s
  | _ => none

/-- Validation of the `Scope` enumeration: exactly the three member
values; anything else is a validation error, never the default label. -/
def parseScope : Json → Except String Scope
  | .str s =>
      if s = "day" then .ok .day
      else if s = "week" then .ok .week
      else if s = "month" then .ok .month
      else .error "scope: input should be day, week or month"
  | _ => .error "scope: input should be day, week or month"

/-- An optional field of an object: absent or null both give `none`;
present non-null values must validate. -/
def parseOptField (fields : List (String × Json)) (k : String)
    (p : Json → Option α) : Except String (Option α) :=
  match lookupField fields k with
  | none => .ok none
  | some .null => .ok none
  | some v =>
      match p v with
      | some a => .ok (some a)
      | none => .error (k ++ ": invalid type")

/-- A required field of an object. -/
def parseReqField (fields : List (String × Json)) (k : String)
    (p : Json → Option α) : Except String α :=
  match lookupField fields k with
  | none => .error (k ++ ": field required")
  | some .null => .error (k ++ ": field required")
  | some v =>
      match p v with
      | some a => .ok a
      | none => .error (k ++ ": invalid type")

/-- Validation of a `PressureSummary` object (`none` when the value is not
an object at all). -/
def parsePressure : Json → Option (Except String PressureSummary)
  | .obj fields =>
      some (match parseOptField fields "min" pyFloat? with
        | .error e => .error e
        | .ok mn =>
            match parseOptField fields "max" pyFloat? with
            | .error e => .error e
            | .ok mx =>
                match parseOptField fields "delta" pyFloat? with
                | .error e => .error e
                | .ok dl => .ok { min := mn, max := mx, delta := dl })
  | _ => none

/-- Validation of a `HeadacheSummary` object (`none` when the value is not
an object at all). -/
def parseHeadache : Json → Option (Except String HeadacheSummary)
  | .obj fields =>
      some (match parseReqField fields "count" pyInt? with
        | .error e => .error e
        | .ok c =>
            match parseReqField fields "max_level" pyInt? with
            | .error e => .error e
            | .ok m =>
                match parseOptField fields "avg_level" pyFloat? with
                | .error e => .error e
                | .ok a =>
                    match parseOptField fields "first_at" pyStr? with
                    | .error e => .error e
                    | .ok f =>
                        match parseOptField fields "last_at" pyStr? with
                        | .error e => .error e
                        | .ok l => .ok { count := c, max_level := m, avg_level := a,
                                         first_at := f, last_at := l })
  | _ => none

/-- The optional `pressure` field of an `AISummary` object. -/
def parsePressureField (fields : List (String × Json)) :
    Except String (Option PressureSummary) :=
  match lookupField fields "pressure" with
  | none => .ok none
  | some .null => .ok none
  | some v =>
      match parsePressure v with
      | some r => r.map some
      | none => .error "pressure: invalid type"

/-- The required `headache` field of an `AISummary` object. -/
def parseHeadacheField (fields : List (String × Json)) :
    Except String HeadacheSummary :=
  match lookupField fields "headache" with
  | none => .error "headache: field required"
  | some .null => .error "headache: field required"
  | some v =>
      match parseHeadache v with
      | some r => r
      | none => .error "headache: invalid type"

/-- Validation of an `AISummary` object: `headache` is required, the rest
optional. -/
def parseSummary : Json → Except String AISummary
  | .obj fields =>
      (match parsePressureField fields with
        | .error e => .error e
        | .ok pres =>
            match parseHeadacheField fields with
            | .error e => .error e
            | .ok hd =>
                match parseOptField fields "sleep_hours_avg" pyFloat? with
                | .error e => .error e
                | .ok sl =>
                    match parseOptField fields "activity_score_avg" pyFloat? with
                    | .error e => .error e
                    | .ok ac => .ok { pressure := pres, headache := hd,
                                      sleep_hours_avg := sl, activity_score_avg := ac })
  | _ => .error "summary: invalid type"

/-- The required `scope` field of a request body. -/
def parseScopeField (fields : List (String × Json)) : Except String Scope :=
  match lookupField fields "scope" with
  | none => .error "scope: field required"
  | some v => parseScope v

/-- The `locale` field of a request body, defaulting to `ja-JP`. -/
def parseLocaleField (fields : List (String × Json)) : Except String String :=
  match lookupField fields "locale" with
  | none => .ok "ja-JP"
  | some v =>
      match pyStr? v with
      | some s => .ok s
      | none => .error "locale: invalid type"

/-- The required `summary` field of a request body. -/
def parseSummaryField (fields : List (String × Json)) : Except String AISummary :=
  match lookupField fields "summary" with
  | none => .error "summary: field required"
  | some v => parseSummary v

/-- Validation of an entire `AICommentRequest` body: structural schema
validation only, performed by FastAPI/pydantic before the handler body
(and hence before any prompt construction or outbound call) runs. -/
def parseRequest : Json → Except String AICommentRequest
  | .obj fields =>
      (match parseReqField fields "user_id" pyStr? with
        | .error e => .error e
        | .ok uid =>
            match parseScopeField fields with
            | .error e => .error e
            | .ok sc =>
                match parseReqField fields "target_date" pyStr? with
                | .error e => .error e
                | .ok td =>
                    match parseLocaleField fields with
                    | .error e => .error e
                    | .ok loc =>
                        match parseSummaryField fields with
                        | .error e => .error e
                        | .ok sm => .ok { user_id := uid, scope := sc,
                                          target_date := td, locale := loc,
                                          summary := sm })
  | _ => .error "body: invalid type"

/-! ### Full request pipeline -/

/-- The error taxonomy visible to a caller: startup configuration failure
(500-class, process never serves), request validation failure (422/400
class, raised by FastAPI before the handler), and an unhandled Python
exception escaping the handler (500-class). -/
inductive ServiceError
  | config (msg : String)
  | validation (msg : String)
  | pyExc (e : PyExc)
deriving DecidableEq, Repr

/-- The service pipeline from process environment to response: module
initialisation (credential check), then schema validation of the body,
then the handler.  The second component counts outbound provider calls
made while producing the result. -/
def handleHttp (env : Env) (provider : ChatCall → ChatCompletion)
    (nowUtc : Nat) (body : Json) : Except ServiceError AICommentResponse × Nat :=
  match bootApp env with
  | .error m => (.error (.config m), 0)
  | .ok _client =>
      match parseRequest body with
      | .error m => (.error (.validation m), 0)
      | .ok req =>
          match ai_comment provider nowUtc req with
          | (.error e, calls) => (.error (.pyExc e), calls.length)
          | (.ok resp, calls) => (.ok resp, calls.length)

/-! ### Helper lemmas about the substring test -/

theorem startsWithSeq_append (pat l r : List Char) (h : startsWithSeq pat l = true) :
    startsWithSeq pat (l ++ r) = true := by
  induction pat generalizing l with
  | nil => rfl
  | cons c cs ih =>
      cases l with
      | nil => simp [startsWithSeq] at h
      | cons d ds =>
          simp only [startsWithSeq, Bool.and_eq_true] at h
          simpa [startsWithSeq, h.1] using ih ds h.2

theorem containsSeq_nil_pat (l : List Char) : containsSeq [] l = true := by
  cases l with
  | nil => rfl
  | cons c cs => simp [containsSeq, startsWithSeq]

theorem containsSeq_append_l (pat l r : List Char) (h : containsSeq pat l = true) :
    containsSeq pat (l ++ r) = true := by
  induction l with
  | nil =>
      simp only [containsSeq, List.isEmpty_iff] at h
      subst h
      simpa using containsSeq_nil_pat r
  | cons c cs ih =>
      simp only [containsSeq, Bool.or_eq_true] at h ⊢
      rcases h with h | h
      · exact Or.inl (startsWithSeq_append pat (c :: cs) r h)
      · exact Or.inr (ih h)

theorem containsSeq_append_r (pat l r : List Char) (h : containsSeq pat r = true) :
    containsSeq pat (l ++ r) = true := by
  induction l with
  | nil => simpa using h
  | cons c cs ih =>
      simp only [List.cons_append, containsSeq, Bool.or_eq_true]
      exact Or.inr ih

theorem string_toList_append (a b : String) : (a ++ b).toList = a.toList ++ b.toList := by
  cases a
  cases b
  rfl

theorem strContains_append_l (a b pat : String) (h : strContains a pat = true) :
    strContains (a ++ b) pat = true := by
  unfold strContains at h ⊢
  rw [string_toList_append]
  exact containsSeq_append_l _ _ _ h

theorem strContains_append_r (a b pat : String) (h : strContains b pat = true) :
    strContains (a ++ b) pat = true := by
  unfold strContains at h ⊢
  rw [string_toList_append]
  exact containsSeq_append_r _ _ _ h

/-! ### Helper lemmas about booting -/

theorem truthyStr_pyOrStr (a b : Option String) :
    truthyStr (pyOrStr a b) = (truthyStr a || truthyStr b) := by
  unfold pyOrStr
  by_cases h : truthyStr a = true <;> simp [h]

theorem bootApp_isOk_eq (env : Env) : (bootApp env).isOk = truthyStr (api_key env) := by
  unfold bootApp truthyStr
  cases api_key env with
  | none => rfl
  | some s =>
      by_cases h : s == "" <;> simp [h, Except.isOk, Except.toBool]

theorem bootApp_error_of_not_truthy (env : Env) (h : truthyStr (api_key env) = false) :
    bootApp env = .error initErrorMsg := by
  unfold bootApp
  cases hk : api_key env with
  | none => rfl
  | some s =>
      rw [hk] at h
      simp only [truthyStr] at h
      have hb : (s == "") = true := by
        cases h2 : (s == "") with
        | true => rfl
        | false => rw [h2] at h; simp at h
      simp [hb]

/-! ### Concrete fixtures used by witnesses and counterexamples -/

/-- A completion choice with whitespace-padded text. -/
def okChoice : CompletionChoice :=
  { message := { content := some "  おだやかな一日でしたね。  " } }

/-- A provider oracle returning one choice with whitespace-padded text. -/
def okProvider : ChatCall → ChatCompletion :=
  fun _ => { choices := [okChoice] }

/-- A provider oracle returning an empty choices list. -/
def emptyChoicesProvider : ChatCall → ChatCompletion :=
  fun _ => { choices := [] }

/-- A provider oracle returning a first choice with null content. -/
def nullContentProvider : ChatCall → ChatCompletion :=
  fun _ => { choices := [{ message := { content := none } }] }

/-- A headache summary with no average level. -/
def sampleHeadache : HeadacheSummary :=
  { count := 3, max_level := 4, avg_level := none, first_at := none, last_at := none }

/-- A summary with every optional part absent. -/
def sampleSummary : AISummary :=
  { pressure := none, headache := sampleHeadache, sleep_hours_avg := none,
    activity_score_avg := none }

/-- A summary whose pressure object is present but missing its `min` field. -/
def partialPressureSummary : AISummary :=
  { pressure := some { min := none, max := some 1010, delta := some 5 },
    headache := sampleHeadache, sleep_hours_avg := none, activity_score_avg := none }

/-- The spec's concrete example request: scope day, 2024-05-01, user u1. -/
def sampleReq : AICommentRequest :=
  { user_id := "u1", scope := .day, target_date := "2024-05-01", locale := "ja-JP",
    summary := sampleSummary }

/-- A second request with the same (user_id, scope, target_date) but a
different summary. -/
def sampleReqAltSummary : AICommentRequest :=
  { sampleReq with summary := partialPressureSummary }

/-- An environment holding a non-empty credential. -/
def envOk : Env := [("OPENAI_API_KEY", "test-key")]

/-- An environment where the credential variable is set to the empty string. -/
def envEmptyKey : Env := [("OPENAI_API_KEY", "")]

/-- The response `okProvider` yields for `sampleReq` at clock reading 100:
the deterministic id and the provider text with its padding stripped. -/
def aiCommentRespC1 : AICommentResponse :=
  { id := "cmnt_2024-05-01_day_u1", scope := .day, target_date := "2024-05-01",
    text := "おだやかな一日でしたね。", generated_at := 100 }

/-- A request body whose scope value is outside the enumeration. -/
def badScopeBody : Json :=
  .obj [("user_id", .str "u1"), ("scope", .str "year"),
    ("target_date", .str "2024-05-01"),
    ("summary", .obj [("headache", .obj [("count", .num 3), ("max_level", .num 4)])])]

/-! ### Claim theorems -/

/-- C1: for every request that produces a response, the response id equals
`"cmnt_" ++ target_date ++ "_" ++ scope ++ "_" ++ user_id` exactly; for
scope day, target date 2024-05-01 and user u1 it is exactly
`cmnt_2024-05-01_day_u1`; and any two requests agreeing on
(user_id, scope, target_date) yield the same id regardless of summary
content. -/
theorem response_id_template (provider : ChatCall → ChatCompletion)
    (nowUtc : Nat) (req : AICommentRequest) (resp : AICommentResponse)
    (calls : List ChatCall)
    (h : ai_comment provider nowUtc req = (.ok resp, calls)) :
    resp.id = "cmnt_" ++ req.target_date ++ "_" ++ req.scope.val ++ "_" ++ req.user_id
    ∧ (req.scope = .day → req.target_date = "2024-05-01" → req.user_id = "u1" →
        resp.id = "cmnt_2024-05-01_day_u1")
    ∧ (∀ req₂ : AICommentRequest, req₂.user_id = req.user_id →
        req₂.scope = req.scope → req₂.target_date = req.target_date →
        comment_id req₂ = resp.id) := by
  simp only [ai_comment] at h
  split at h
  · simp at h
  · split at h
    · simp at h
    · simp only [Prod.mk.injEq, Except.ok.injEq] at h
      obtain ⟨hresp, -⟩ := h
      subst hresp
      refine ⟨rfl, ?_, ?_⟩
      · intro hs hd hu
        unfold comment_id
        rw [hs, hd, hu]
        dsimp only
        decide
      · intro req₂ hu hs hd
        simp [comment_id, hs, hd, hu]

/-- C1 witness: the theorem instantiated at the spec's concrete example
request and a well-formed provider. -/
theorem response_id_template_witness :
    (aiCommentRespC1).id =
      "cmnt_" ++ sampleReq.target_date ++ "_" ++ sampleReq.scope.val ++ "_" ++ sampleReq.user_id
    ∧ (sampleReq.scope = .day → sampleReq.target_date = "2024-05-01" →
        sampleReq.user_id = "u1" → (aiCommentRespC1).id = "cmnt_2024-05-01_day_u1")
    ∧ (∀ req₂ : AICommentRequest, req₂.user_id = sampleReq.user_id →
        req₂.scope = sampleReq.scope → req₂.target_date = sampleReq.target_date →
        comment_id req₂ = (aiCommentRespC1).id) :=
  response_id_template okProvider 100 sampleReq aiCommentRespC1
    [mkChatCall sampleReq] rfl

/-- C2 counterexample: a request whose pressure object is present but whose
`min` field is absent renders the literal token `None` in the pressure line
and no 情報なし marker at all, refuting the per-field half of the claim. -/
theorem pressure_field_marker_counterexample :
    partialPressureSummary.pressure =
      some { min := none, max := some 1010, delta := some 5 } ∧
    strContains (pressure_line partialPressureSummary) "情報なし" = false ∧
    strContains (pressure_line partialPressureSummary) "None" = true := by
  refine ⟨rfl, ?_, ?_⟩ <;> decide

/-- C2 (amended): the rendered pressure line carries the 情報なし marker
exactly when the whole PressureSummary object is absent (and then contains
no None token); when the object is present, each individually absent field
is interpolated as the literal token `None` — not as 情報なし and not as
zero. -/
theorem pressure_line_markers (summary : AISummary) :
    (summary.pressure = none →
      pressure_line summary = "- 気圧: 情報なし" ∧
      strContains (pressure_line summary) "情報なし" = true ∧
      strContains (pressure_line summary) "None" = false) ∧
    (∀ p, summary.pressure = some p →
      pressure_line summary =
        "- 気圧: " ++ "最低 " ++ pyOptFloatRepr p.min ++ " hPa, 最高 " ++
          pyOptFloatRepr p.max ++ " hPa, 変動幅 " ++ pyOptFloatRepr p.delta ++ " hPa" ∧
      (p.min = none → strContains (pressure_line summary) "None" = true) ∧
      pyOptFloatRepr none = "None") := by
  constructor
  · intro h
    have hl : pressure_line summary = "- 気圧: 情報なし" := by
      unfold pressure_line
      rw [h]
    refine ⟨hl, ?_, ?_⟩ <;> rw [hl] <;> decide
  · intro p hp
    have hl : pressure_line summary =
        "- 気圧: " ++ "最低 " ++ pyOptFloatRepr p.min ++ " hPa, 最高 " ++
          pyOptFloatRepr p.max ++ " hPa, 変動幅 " ++ pyOptFloatRepr p.delta ++ " hPa" := by
      unfold pressure_line
      rw [hp]
    refine ⟨hl, ?_, rfl⟩
    intro hmin
    rw [hl, hmin]
    apply strContains_append_l
    apply strContains_append_l
    apply strContains_append_l
    apply strContains_append_l
    decide

/-- C2 witness: the amended theorem instantiated at a summary with no
pressure object. -/
theorem pressure_line_markers_witness :
    pressure_line sampleSummary = "- 気圧: 情報なし" ∧
    strContains (pressure_line sampleSummary) "情報なし" = true ∧
    strContains (pressure_line sampleSummary) "None" = false :=
  (pressure_line_markers sampleSummary).1 rfl

/-- C9 counterexample: with OPENAI_API_KEY set (to the empty string) the
claimed iff fails — the variable is set, yet module initialisation raises
the RuntimeError, so the process does not start serving. -/
theorem serving_iff_env_set_counterexample :
    (getenv envEmptyKey "OPENAI_API_KEY").isSome = true ∧
    bootApp envEmptyKey = .error initErrorMsg :=
  ⟨rfl, rfl⟩

/-- C9 (amended): the process starts serving iff at least one of
OPENAI_API_KEY and _OPENAI_API_KEY is set to a non-empty string (Python
truthiness, OPENAI_API_KEY consulted first); otherwise module
initialisation fails with the fixed RuntimeError message, so no endpoint
is served; and request handling depends on the environment only through
the credential value read once at start. -/
theorem serving_iff_truthy_credential (env : Env) :
    ((bootApp env).isOk =
      (truthyStr (getenv env "OPENAI_API_KEY") ||
        truthyStr (getenv env "_OPENAI_API_KEY"))) ∧
    ((truthyStr (getenv env "OPENAI_API_KEY") ||
        truthyStr (getenv env "_OPENAI_API_KEY")) = false →
      bootApp env = .error initErrorMsg) ∧
    (∀ env₂, api_key env = api_key env₂ →
      ∀ provider nowUtc body,
        handleHttp env provider nowUtc body = handleHttp env₂ provider nowUtc body) := by
  refine ⟨?_, ?_, ?_⟩
  · rw [bootApp_isOk_eq]
    unfold api_key
    exact truthyStr_pyOrStr _ _
  · intro h
    apply bootApp_error_of_not_truthy
    unfold api_key
    rw [truthyStr_pyOrStr]
    exact h
  · intro env₂ heq provider nowUtc body
    have hb : bootApp env = bootApp env₂ := by
      unfold bootApp
      rw [heq]
    unfold handleHttp
    rw [hb]

/-- C9 witness: the amended theorem instantiated at the empty environment
and at the empty-string-credential environment, whose startup reads agree. -/
theorem serving_iff_truthy_credential_witness :
    bootApp ([] : Env) = .error initErrorMsg ∧
    handleHttp [] emptyChoicesProvider 0 badScopeBody =
      handleHttp envEmptyKey emptyChoicesProvider 0 badScopeBody :=
  ⟨(serving_iff_truthy_credential []).2.1 rfl,
   (serving_iff_truthy_credential []).2.2 envEmptyKey rfl emptyChoicesProvider 0
     badScopeBody⟩

/-- C3: when the provider credential is absent from the environment,
module initialisation fails with the configuration RuntimeError, so every
request through the pipeline yields that configuration error with zero
outbound provider calls; the configuration error is a different
constructor from a request-validation error, and no default credential is
ever substituted. -/
theorem missing_credential_fails_before_call (env : Env)
    (h1 : getenv env "OPENAI_API_KEY" = none)
    (h2 : getenv env "_OPENAI_API_KEY" = none) :
    bootApp env = .error initErrorMsg ∧
    (∀ provider nowUtc body,
      handleHttp env provider nowUtc body = (.error (.config initErrorMsg), 0)) ∧
    (∀ m m', ServiceError.config m ≠ ServiceError.validation m') := by
  have hk : api_key env = none := by
    unfold api_key pyOrStr
    rw [h1, h2]
    rfl
  have hb : bootApp env = .error initErrorMsg := by
    unfold bootApp
    rw [hk]
  refine ⟨hb, ?_, ?_⟩
  · intro provider nowUtc body
    unfold handleHttp
    rw [hb]
  · intro m m' hcontra
    exact ServiceError.noConfusion hcontra

/-- C3 witness: the theorem instantiated at the empty environment. -/
theorem missing_credential_fails_before_call_witness :
    bootApp ([] : Env) = .error initErrorMsg ∧
    (∀ provider nowUtc body,
      handleHttp [] provider nowUtc body = (.error (.config initErrorMsg), 0)) ∧
    (∀ m m', ServiceError.config m ≠ ServiceError.validation m') :=
  missing_credential_fails_before_call [] rfl rfl

/-- C5: for any request whose provider response is well-formed, the handler
makes exactly one outbound call — fixed model `gpt-4.1-mini`, exactly the
fixed system prompt and the rendered user prompt, temperature 0.4 — and the
response text is the provider text with leading/trailing whitespace
stripped and no other modification; the returned pair (response plus that
single call) is the handler's entire observable effect. -/
theorem single_call_fixed_params_trimmed (provider : ChatCall → ChatCompletion)
    (nowUtc : Nat) (req : AICommentRequest) (choice : CompletionChoice)
    (content : String)
    (h1 : (provider (mkChatCall req)).choices.head? = some choice)
    (h2 : choice.message.content = some content) :
    ai_comment provider nowUtc req =
      (.ok { id := comment_id req, scope := req.scope,
             target_date := req.target_date, text := pyStrip content,
             generated_at := nowUtc }, [mkChatCall req]) ∧
    (ai_comment provider nowUtc req).2.length = 1 ∧
    (mkChatCall req).model = "gpt-4.1-mini" ∧
    (mkChatCall req).messages =
      [⟨"system", SYSTEM_PROMPT⟩, ⟨"user", user_prompt req⟩] ∧
    (mkChatCall req).temperature = 0.4 := by
  have he : ai_comment provider nowUtc req =
      (.ok { id := comment_id req, scope := req.scope,
             target_date := req.target_date, text := pyStrip content,
             generated_at := nowUtc }, [mkChatCall req]) := by
    simp only [ai_comment]
    rw [h1]
    dsimp only
    rw [h2]
  refine ⟨he, ?_, rfl, rfl, rfl⟩
  rw [he]
  rfl

/-- C5 witness: the theorem instantiated at a well-formed provider and the
sample request. -/
theorem single_call_fixed_params_trimmed_witness :
    ai_comment okProvider 100 sampleReq =
      (.ok { id := comment_id sampleReq, scope := sampleReq.scope,
             target_date := sampleReq.target_date,
             text := pyStrip "  おだやかな一日でしたね。  ", generated_at := 100 },
        [mkChatCall sampleReq]) ∧
    (ai_comment okProvider 100 sampleReq).2.length = 1 ∧
    (mkChatCall sampleReq).model = "gpt-4.1-mini" ∧
    (mkChatCall sampleReq).messages =
      [⟨"system", SYSTEM_PROMPT⟩, ⟨"user", user_prompt sampleReq⟩] ∧
    (mkChatCall sampleReq).temperature = 0.4 :=
  single_call_fixed_params_trimmed okProvider 100 sampleReq okChoice
    "  おだやかな一日でしたね。  " rfl rfl

/-- C6: the headache line is always rendered (it is the second entry of the
parts list for every summary), and when `avg_level` is absent the line ends
with the 情報なし marker in place of the average, never a null literal; the
rendering is a total function of the summary, so it cannot raise on the
missing value. -/
theorem headache_line_marker (summary : AISummary) :
    (build_parts summary).get? 1 = some (headache_line summary) ∧
    (summary.headache.avg_level = none →
      headache_line summary =
        "- 頭痛スタンプ: 合計 " ++ toString summary.headache.count ++ " 件, " ++
          "最大レベル " ++ toString summary.headache.max_level ++ ", " ++
          "平均レベル " ++ "情報なし" ∧
      strContains (headache_line summary) "情報なし" = true) := by
  constructor
  · rfl
  · intro h
    have hl : headache_line summary =
        "- 頭痛スタンプ: 合計 " ++ toString summary.headache.count ++ " 件, " ++
          "最大レベル " ++ toString summary.headache.max_level ++ ", " ++
          "平均レベル " ++ "情報なし" := by
      simp only [headache_line]
      rw [h]
    refine ⟨hl, ?_⟩
    rw [hl]
    apply strContains_append_r
    decide

/-- C6 witness: the theorem instantiated at the sample summary, whose
average level is absent. -/
theorem headache_line_marker_witness :
    (build_parts sampleSummary).get? 1 = some (headache_line sampleSummary) ∧
    (sampleSummary.headache.avg_level = none →
      headache_line sampleSummary =
        "- 頭痛スタンプ: 合計 " ++ toString sampleSummary.headache.count ++ " 件, " ++
          "最大レベル " ++ toString sampleSummary.headache.max_level ++ ", " ++
          "平均レベル " ++ "情報なし" ∧
      strContains (headache_line sampleSummary) "情報なし" = true) :=
  headache_line_marker sampleSummary

/-- C7: the rendered lines are joined with newlines into a single block in
the fixed order pressure, headache, sleep, activity; the sleep line renders
the value when present and the 情報なし phrase when absent, and the
activity line follows the same pattern. -/
theorem stats_block_fixed_order (summary : AISummary) :
    stats_block summary =
      pressure_line summary ++ "\n" ++ headache_line summary ++ "\n" ++
        sleep_line summary ++ "\n" ++ activity_line summary ∧
    (∀ v, summary.sleep_hours_avg = some v →
      sleep_line summary = "- 平均睡眠時間: " ++ pyFloatRepr v ++ " 時間") ∧
    (summary.sleep_hours_avg = none →
      sleep_line summary = "- 平均睡眠時間: 情報なし" ∧
      strContains (sleep_line summary) "情報なし" = true) ∧
    (∀ v, summary.activity_score_avg = some v →
      activity_line summary = "- 活動量スコア平均: " ++ pyFloatRepr v) ∧
    (summary.activity_score_avg = none →
      activity_line summary = "- 活動量スコア平均: 情報なし" ∧
      strContains (activity_line summary) "情報なし" = true) := by
  refine ⟨?_, ?_, ?_, ?_, ?_⟩
  · rfl
  · intro v hv
    unfold sleep_line
    rw [hv]
  · intro hv
    have hl : sleep_line summary = "- 平均睡眠時間: 情報なし" := by
      unfold sleep_line
      rw [hv]
    exact ⟨hl, by rw [hl]; decide⟩
  · intro v hv
    unfold activity_line
    rw [hv]
  · intro hv
    have hl : activity_line summary = "- 活動量スコア平均: 情報なし" := by
      unfold activity_line
      rw [hv]
    exact ⟨hl, by rw [hl]; decide⟩

/-- C7 witness: the theorem instantiated at the sample summary, whose sleep
and activity averages are both absent. -/
theorem stats_block_fixed_order_witness :
    stats_block sampleSummary =
      pressure_line sampleSummary ++ "\n" ++ headache_line sampleSummary ++ "\n" ++
        sleep_line sampleSummary ++ "\n" ++ activity_line sampleSummary ∧
    (∀ v, sampleSummary.sleep_hours_avg = some v →
      sleep_line sampleSummary = "- 平均睡眠時間: " ++ pyFloatRepr v ++ " 時間") ∧
    (sampleSummary.sleep_hours_avg = none →
      sleep_line sampleSummary = "- 平均睡眠時間: 情報なし" ∧
      strContains (sleep_line sampleSummary) "情報なし" = true) ∧
    (∀ v, sampleSummary.activity_score_avg = some v →
      activity_line sampleSummary = "- 活動量スコア平均: " ++ pyFloatRepr v) ∧
    (sampleSummary.activity_score_avg = none →
      activity_line sampleSummary = "- 活動量スコア平均: 情報なし" ∧
      strContains (activity_line sampleSummary) "情報なし" = true) :=
  stats_block_fixed_order sampleSummary

/-- C8: `generated_at` is exactly the UTC clock reading taken by the
handler when it constructs the response (`datetime.utcnow()` is embedded
as the `nowUtc` parameter, a UTC timestamp); under the physical assumption
that the clock reading at response construction is at least the reading at
request receipt, `generated_at` is greater than or equal to the receipt
time. -/
theorem generated_at_utcnow (provider : ChatCall → ChatCompletion)
    (req : AICommentRequest) (choice : CompletionChoice) (content : String)
    (nowUtc tReceived : Nat)
    (h1 : (provider (mkChatCall req)).choices.head? = some choice)
    (h2 : choice.message.content = some content)
    (hclock : tReceived ≤ nowUtc) :
    ∃ resp, (ai_comment provider nowUtc req).1 = .ok resp ∧
      resp.generated_at = nowUtc ∧ tReceived ≤ resp.generated_at := by
  have he : ai_comment provider nowUtc req =
      (.ok { id := comment_id req, scope := req.scope,
             target_date := req.target_date, text := pyStrip content,
             generated_at := nowUtc }, [mkChatCall req]) := by
    simp only [ai_comment]
    rw [h1]
    dsimp only
    rw [h2]
  exact ⟨_, by rw [he], rfl, hclock⟩

/-- C8 witness: the theorem instantiated at the sample request, receipt
time 7 and stamping time 100. -/
theorem generated_at_utcnow_witness :
    ∃ resp, (ai_comment okProvider 100 sampleReq).1 = .ok resp ∧
      resp.generated_at = 100 ∧ 7 ≤ resp.generated_at :=
  generated_at_utcnow okProvider sampleReq okChoice
    "  おだやかな一日でしたね。  " 100 7 rfl rfl (by decide)

/-- C10: the handler reads `completion.choices[0].message.content.strip()`
with no guard: an empty choices list escapes as an unhandled IndexError and
a null content as an unhandled AttributeError — no translation to an
explicit provider-error value — while the success path is defined exactly
when the first choice exists and its content is a non-null string, which is
then stripped. -/
theorem unguarded_response_extraction (provider : ChatCall → ChatCompletion)
    (nowUtc : Nat) (req : AICommentRequest) :
    ((provider (mkChatCall req)).choices = [] →
      ai_comment provider nowUtc req = (.error .indexError, [mkChatCall req])) ∧
    (∀ choice rest, (provider (mkChatCall req)).choices = choice :: rest →
      choice.message.content = none →
      ai_comment provider nowUtc req = (.error .attributeError, [mkChatCall req])) ∧
    (∀ choice rest content, (provider (mkChatCall req)).choices = choice :: rest →
      choice.message.content = some content →
      (ai_comment provider nowUtc req).1 =
        .ok { id := comment_id req, scope := req.scope,
              target_date := req.target_date, text := pyStrip content,
              generated_at := nowUtc }) := by
  refine ⟨?_, ?_, ?_⟩
  · intro h
    simp only [ai_comment]
    rw [h]
    rfl
  · intro choice rest h hc
    simp only [ai_comment]
    rw [h]
    simp only [List.head?_cons]
    rw [hc]
  · intro choice rest content h hc
    simp only [ai_comment]
    rw [h]
    simp only [List.head?_cons]
    rw [hc]

/-- C10 witness: the theorem instantiated at a provider returning an empty
choices list. -/
theorem unguarded_response_extraction_witness :
    ai_comment emptyChoicesProvider 0 sampleReq =
      (.error .indexError, [mkChatCall sampleReq]) :=
  (unguarded_response_extraction emptyChoicesProvider 0 sampleReq).1 rfl

/-! ### Helper lemmas for validation -/

theorem parseScope_invalid (s : String) (h1 : s ≠ "day") (h2 : s ≠ "week")
    (h3 : s ≠ "month") :
    parseScope (.str s) = .error "scope: input should be day, week or month" := by
  unfold parseScope
  dsimp only
  rw [if_neg h1, if_neg h2, if_neg h3]

theorem parseSummary_headache_missing (sfields : List (String × Json))
    (h : lookupField sfields "headache" = none) :
    ∃ m, parseSummary (.obj sfields) = .error m := by
  have hh : parseHeadacheField sfields = .error "headache: field required" := by
    unfold parseHeadacheField
    rw [h]
  unfold parseSummary
  dsimp only
  cases hp : parsePressureField sfields with
  | error e => exact ⟨e, rfl⟩
  | ok pres => exact ⟨"headache: field required", by rw [hh]⟩

/-- C4: a request body that fails schema validation is rejected with a
request-validation error and zero outbound provider calls (hence before
any prompt construction); in particular a scope string outside
{day, week, month} and a missing required headache summary always fail
validation; and no `Scope` member ever maps to the defensive default
label, so an unrecognized scope is never silently given the default. -/
theorem invalid_request_rejected (env : Env) (key : String)
    (hboot : bootApp env = .ok key) :
    (∀ body m, parseRequest body = .error m →
      ∀ provider nowUtc,
        handleHttp env provider nowUtc body = (.error (.validation m), 0)) ∧
    (∀ fields s, lookupField fields "scope" = some (.str s) →
      s ≠ "day" → s ≠ "week" → s ≠ "month" →
      ∃ m, parseRequest (.obj fields) = .error m) ∧
    (∀ fields sfields, lookupField fields "summary" = some (.obj sfields) →
      lookupField sfields "headache" = none →
      ∃ m, parseRequest (.obj fields) = .error m) ∧
    (∀ s : Scope, scope_label s ≠ "この期間") := by
  refine ⟨?_, ?_, ?_, ?_⟩
  · intro body m hm provider nowUtc
    unfold handleHttp
    rw [hboot, hm]
  · intro fields s hs h1 h2 h3
    unfold parseRequest
    dsimp only
    cases hu : parseReqField fields "user_id" pyStr? with
    | error e => exact ⟨e, rfl⟩
    | ok uid =>
        have hsf : parseScopeField fields =
            .error "scope: input should be day, week or month" := by
          unfold parseScopeField
          rw [hs]
          exact parseScope_invalid s h1 h2 h3
        exact ⟨_, by rw [hsf]⟩
  · intro fields sfields hsum hhd
    unfold parseRequest
    dsimp only
    cases hu : parseReqField fields "user_id" pyStr? with
    | error e => exact ⟨e, rfl⟩
    | ok uid =>
        cases hsc : parseScopeField fields with
        | error e => exact ⟨e, rfl⟩
        | ok sc =>
            cases htd : parseReqField fields "target_date" pyStr? with
            | error e => exact ⟨e, rfl⟩
            | ok td =>
                cases hloc : parseLocaleField fields with
                | error e => exact ⟨e, rfl⟩
                | ok loc =>
                    obtain ⟨m, hm⟩ := parseSummary_headache_missing sfields hhd
                    have hsf : parseSummaryField fields = .error m := by
                      unfold parseSummaryField
                      rw [hsum]
                      exact hm
                    exact ⟨m, by rw [hsf]⟩
  · intro s
    cases s <;> decide

/-- C4 witness: the theorem instantiated at a body with an unrecognized
scope value, with a provider oracle that is never consulted. -/
theorem invalid_request_rejected_witness :
    handleHttp envOk emptyChoicesProvider 0 badScopeBody =
      (.error (.validation "scope: input should be day, week or month"), 0) :=
  (invalid_request_rejected envOk "test-key" rfl).1 badScopeBody
    "scope: input should be day, week or month" rfl emptyChoicesProvider 0

end MokuMoku
